import Mathlib

/-!
# Verification of the `django-rest` declarative REST toolkit

Shallow embedding of the repository's core components:
* `django_rest/permissions.py` — the permission-predicate algebra (AND/OR/XOR/NOT);
* `django_rest/deserializers/base.py` — the validating deserialization engine;
* `django_rest/serializers/*.py` — the projection (serialization) engine and fields;
* `django_rest/decorators/utils.py` — the request-decoration gate chain.

Python values flowing through the engines (JSON-shaped data plus the few
non-JSON shapes the code distinguishes) are modelled by the inductive `Value`.
Machine behaviour that raises exceptions is modelled with `Except`.
-/

set_option maxHeartbeats 1000000

namespace DjangoRest

/-- Python exception classes that the serializer code catches or raises
(`except (KeyError, AttributeError, TypeError, ValueError)` in
`Serializer._serialize`); `other` stands for any exception outside that
caught tuple. -/
inductive PyExc where
  | keyError (msg : String)
  | attributeError (msg : String)
  | typeError (msg : String)
  | valueError (msg : String)
  | other (msg : String)
deriving DecidableEq, Repr

/-- A Python float, represented exactly as a decimal fraction
`num / 10 ^ exp` (the representation produced by the decimal literals and
decimal strings the engines handle; it is not normalized, and no claim
compares floats across representations). -/
structure Dec where
  num : Int
  exp : Nat
deriving DecidableEq, Repr

/-- JSON-shaped Python values handled by the engines, plus:
* `func` — a zero-argument callable (for fields declared with `call=True`),
  modelled by the outcome of calling it;
* `obj` — any other non-primitive Python object (e.g. a class instance),
  which is neither a primitive nor an iterable/mapping. -/
inductive Value where
  | none
  | bool (b : Bool)
  | int (n : Int)
  | float (d : Dec)
  | str (s : String)
  | list (l : List Value)
  | dict (m : List (String × Value))
  | func (r : Except PyExc Value)
  | obj (id : Nat)

/-- Python truthiness (`bool(v)`) on the modelled values. -/
def pyTruthy : Value → Bool
  | .none => false
  | .bool b => b
  | .int n => n ≠ 0
  | .float d => d.num ≠ 0
  | .str s => s ≠ ""
  | .list l => !l.isEmpty
  | .dict m => !m.isEmpty
  | .func _ => true
  | .obj _ => true

/-- First-occurrence association-list lookup, mirroring Python `dict` reads. -/
def dictGet {β : Type} (m : List (String × β)) (k : String) : Option β :=
  match m with
  | [] => Option.none
  | (k', v) :: rest => if k' = k then some v else dictGet rest k

/-- Python `dict` assignment `m[k] = v`: replaces the value of an existing
key in place, otherwise appends the new pair. -/
def dictSet {β : Type} (m : List (String × β)) (k : String) (v : β) :
    List (String × β) :=
  match m with
  | [] => [(k, v)]
  | (k', v') :: rest =>
      if k' = k then (k', v) :: rest else (k', v') :: dictSet rest k v

/-!
## Permission-predicate algebra (`django_rest/permissions.py`)

A permission class exposes `has_permission(self, request, view) -> bool`
and is stateless; the `(request, view)` pair is opaque to the algebra and is
modelled by a single context value.  A class also carries its `__name__`,
used by the combinators to build the generated class name.

The combinators (`AND`, `OR`, `XOR`, `NOT`) build a new permission class
whose `has_permission` calls `cls.calculate` on the bound `has_permission`
methods of freshly instantiated operands:

    AND.calculate(f, g, *a) = f(*a) and g(*a)     -- Python `and`
    OR.calculate(f, g, *a)  = f(*a) or  g(*a)     -- Python `or`
    XOR.calculate(f, g, *a) = f(*a) ^  g(*a)      -- bitwise, both evaluated
    NOT.calculate(f, *a)    = not f(*a)

Python's `and`/`or` evaluate their second operand only when the first one
does not already decide the result.  To make that observable the evaluators
below return, next to the boolean result, the trace of operand names whose
`has_permission` was actually called, in call order.
-/

/-- Opaque evaluation context standing for the `(request, view)` pair. -/
abbrev Ctx := Nat

/-- A permission class: its `__name__` and its `has_permission` method. -/
structure PermClass where
  name : String
  hasPermission : Ctx → Bool

/-- `AND.calculate`: Python `first(*args) and second(*args)` — the second
operand is evaluated only when the first call returns a truthy value.
Returns the result together with the trace of evaluated operands. -/
def andHasPermission (p q : PermClass) (ctx : Ctx) : Bool × List String :=
  let r := p.hasPermission ctx
  if r then (q.hasPermission ctx, [p.name, q.name]) else (false, [p.name])

/-- `OR.calculate`: Python `first(*args) or second(*args)` — the second
operand is evaluated only when the first call returns a falsy value. -/
def orHasPermission (p q : PermClass) (ctx : Ctx) : Bool × List String :=
  let r := p.hasPermission ctx
  if r then (true, [p.name]) else (q.hasPermission ctx, [p.name, q.name])

/-- `XOR.calculate`: Python `first(*args) ^ second(*args)` — `^` is a strict
operator, both calls are made before combining. -/
def xorHasPermission (p q : PermClass) (ctx : Ctx) : Bool × List String :=
  (xor (p.hasPermission ctx) (q.hasPermission ctx), [p.name, q.name])

/-- `NOT.calculate`: Python `not function(*args)`. -/
def notHasPermission (p : PermClass) (ctx : Ctx) : Bool × List String :=
  (!p.hasPermission ctx, [p.name])

/-- `BinaryOperator.build_classname`:
`"({}{}{})".format(class_1.__name__, cls.OPERATOR_NAME, class_2.__name__)`. -/
def binaryBuildClassname (operatorName n1 n2 : String) : String :=
  "(" ++ n1 ++ operatorName ++ n2 ++ ")"

/-- `UnaryOperator.build_classname`:
`"({}{})".format(cls.OPERATOR_NAME, _class.__name__)`. -/
def unaryBuildClassname (operatorName n : String) : String :=
  "(" ++ operatorName ++ n ++ ")"

/-- `AND.OPERATOR_NAME` -/
def AND_OPERATOR_NAME : String := "_AND_"

/-- `OR.OPERATOR_NAME` -/
def OR_OPERATOR_NAME : String := "_OR_"

/-- `XOR.OPERATOR_NAME` -/
def XOR_OPERATOR_NAME : String := "_XOR_"

/-- `NOT.OPERATOR_NAME` -/
def NOT_OPERATOR_NAME : String := "NOT_"

/-- Predicate class that always grants permission. -/
def permAlwaysTrue : PermClass := ⟨"A", fun _ => true⟩

/-- Predicate class that always denies permission. -/
def permAlwaysFalse : PermClass := ⟨"B", fun _ => false⟩

/-- C1 (counterexample): evaluating `(B _AND_ A).has_permission` where `B`
always returns `False` calls only `B`'s `has_permission` — the second
operand `A` is never evaluated, because Python's `and` short-circuits;
dually, `(A _OR_ B)` with `A` always `True` never evaluates `B`.  This
refutes the claim that both operands are always evaluated with no
short-circuiting. -/
theorem binary_operators_short_circuit_cex :
    (andHasPermission permAlwaysFalse permAlwaysTrue 0).2 = ["B"]
    ∧ permAlwaysTrue.name ∉ (andHasPermission permAlwaysFalse permAlwaysTrue 0).2
    ∧ (orHasPermission permAlwaysTrue permAlwaysFalse 0).2 = ["A"]
    ∧ permAlwaysFalse.name ∉ (orHasPermission permAlwaysTrue permAlwaysFalse 0).2 := by
  refine ⟨rfl, ?_, rfl, ?_⟩ <;> decide

/-- C1 (amended): every combined predicate returns the corresponding logical
combination of its operands' `has_permission` results on the shared context,
but evaluation order follows Python semantics: `AND` evaluates its second
operand only when the first returned `True`, `OR` only when the first
returned `False`, while `XOR` and `NOT` always evaluate all their operands. -/
theorem combined_predicates_results_and_evaluation (p q : PermClass) (ctx : Ctx) :
    (andHasPermission p q ctx).1 = (p.hasPermission ctx && q.hasPermission ctx)
    ∧ (orHasPermission p q ctx).1 = (p.hasPermission ctx || q.hasPermission ctx)
    ∧ (xorHasPermission p q ctx).1 = xor (p.hasPermission ctx) (q.hasPermission ctx)
    ∧ (notHasPermission p ctx).1 = !p.hasPermission ctx
    ∧ (andHasPermission p q ctx).2
        = (if p.hasPermission ctx then [p.name, q.name] else [p.name])
    ∧ (orHasPermission p q ctx).2
        = (if p.hasPermission ctx then [p.name] else [p.name, q.name])
    ∧ (xorHasPermission p q ctx).2 = [p.name, q.name]
    ∧ (notHasPermission p ctx).2 = [p.name] := by
  unfold andHasPermission orHasPermission xorHasPermission notHasPermission
  cases h : p.hasPermission ctx <;> simp

/-- C6: for predicate classes `A ≡ true` and `B ≡ false`, the combined
predicates evaluate on every context to: `(A & B) ≡ false`, `(A | B) ≡ true`,
`(A ^ A) ≡ false`, `(~A) ≡ false`; and the combinator's generated class name
is deterministic from the operand names: `A | B` yields `(A_OR_B)`. -/
theorem predicate_algebra_on_constants (ctx : Ctx) :
    (andHasPermission permAlwaysTrue permAlwaysFalse ctx).1 = false
    ∧ (orHasPermission permAlwaysTrue permAlwaysFalse ctx).1 = true
    ∧ (xorHasPermission permAlwaysTrue permAlwaysTrue ctx).1 = false
    ∧ (notHasPermission permAlwaysTrue ctx).1 = false
    ∧ binaryBuildClassname OR_OPERATOR_NAME permAlwaysTrue.name permAlwaysFalse.name
        = "(A_OR_B)" := by
  refine ⟨rfl, rfl, rfl, rfl, rfl⟩

/-!
## Deserialization engine (`django_rest/deserializers/base.py`)

`BaseDeserializer` subclasses `django.forms.fields.Field` and delegates
per-field coercion to the Django form fields declared on the schema
(`IntegerField`, `FloatField`, `CharField`, or a nested deserializer).
The Django fields are the external collaborator; their `clean` behaviour
(`to_python` → `validate`) is embedded below exactly as the repository's
tests pin it: an empty value cleans to the field's empty result (`None`
for numeric fields, `""` for char), a required field with an empty value
raises `"This field is required."`, and an uncoercible value raises the
type-specific message (`"Enter a whole number."` / `"Enter a number."`).
The schemas exercised by the claims declare no extra validators, so
`run_validators` is a no-op here.  `post_clean_<name>` hooks are likewise
absent from the modelled schemas.
-/

/-- Messages list of a flat `ValidationError`. -/
abbrev Msgs := List String

/-- One entry of the error tree: a flat field contributes its message list,
a nested deserializer contributes its own error mapping
(`BaseDeserializer._get_error_dict`). -/
inductive ErrEntry where
  | msgs (l : Msgs)
  | nested (t : List (String × ErrEntry))

/-- The `ErrorDict` of a deserializer instance. -/
abbrev Errors := List (String × ErrEntry)

/-- A raised `ValidationError`: either flat messages (plain field, or the
`"This field should be an object."` raise) or a whole `ErrorDict`
(re-raised by a nested deserializer's `clean`). -/
inductive VErr where
  | flat (l : Msgs)
  | tree (t : Errors)

/-- A declared deserializer field: the Django form fields the repository
uses, or a nested deserializer schema used as a field. -/
inductive DField where
  | integer (required : Bool)
  | float (required : Bool)
  | char (required : Bool)
  | nested (required : Bool) (schema : List (String × DField))

/-- The `required` flag of a declared field. -/
def DField.required : DField → Bool
  | .integer r => r
  | .float r => r
  | .char r => r
  | .nested r _ => r

/-- `BaseDeserializer.empty_values = (None, "")` — membership test of the
raw data in the deserializer's empty sentinels. -/
def isDeserializerEmpty : Value → Bool
  | .none => true
  | .str s => s = ""
  | _ => false

/-- Django's `validators.EMPTY_VALUES = (None, '', [], (), {})` membership,
used by the plain form fields' `to_python`/`validate`. -/
def isDjangoEmpty : Value → Bool
  | .none => true
  | .str s => s = ""
  | .list l => l.isEmpty
  | .dict m => m.isEmpty
  | _ => false

/-- Is the value a mapping (`isinstance(self._data, dict)`)? -/
def isDict : Value → Bool
  | .dict _ => true
  | _ => false

/-- Numeric value of a run of decimal digits. -/
def digitsToNat (l : List Char) : Nat :=
  l.foldl (fun acc c => acc * 10 + (c.toNat - '0'.toNat)) 0

/-- Strip leading and trailing whitespace from a character list (Python's
`int()`/`float()` accept surrounding whitespace). -/
def stripWs (l : List Char) : List Char :=
  ((l.dropWhile Char.isWhitespace).reverse.dropWhile Char.isWhitespace).reverse

/-- Integer-literal parser modelling Python `int(str)`: optional sign then
decimal digits; anything else raises `ValueError`. -/
def parseIntLiteral (s : String) : Option Int :=
  let cs := stripWs s.toList
  let sd : Int × List Char :=
    match cs with
    | '-' :: rest => (-1, rest)
    | '+' :: rest => (1, rest)
    | _ => (1, cs)
  if sd.2 ≠ [] && sd.2.all Char.isDigit then
    some (sd.1 * digitsToNat sd.2)
  else Option.none

/-- Decimal-literal parser modelling Python `float(str)`: optional sign,
digits, optional single fractional part (`"3"`, `"48.43"`, `"1."`, `".5"`);
anything else raises `ValueError`. -/
def parseDecimal (s : String) : Option Dec :=
  let cs := stripWs s.toList
  let sd : Int × List Char :=
    match cs with
    | '-' :: rest => (-1, rest)
    | '+' :: rest => (1, rest)
    | _ => (1, cs)
  match sd.2.splitOn '.' with
  | [intPart] =>
      if intPart ≠ [] && intPart.all Char.isDigit then
        some ⟨sd.1 * digitsToNat intPart, 0⟩
      else Option.none
  | [intPart, fracPart] =>
      if (intPart ≠ [] || fracPart ≠ [])
          && intPart.all Char.isDigit && fracPart.all Char.isDigit then
        some ⟨sd.1 * ((digitsToNat intPart : Int) * 10 ^ fracPart.length
          + digitsToNat fracPart), fracPart.length⟩
      else Option.none
  | _ => Option.none

/-- Python `str()` on the modelled values (used by `CharField.to_python`
and by `IntegerField.to_python`'s `int(str(value))`).  Container and
object reprs are coarse: no claim depends on them. -/
def pyStr : Value → String
  | .none => "None"
  | .bool b => if b then "True" else "False"
  | .int n => toString n
  | .float d => toString d.num ++ "e-" ++ toString d.exp
  | .str s => s
  | .list _ => "<list>"
  | .dict _ => "<dict>"
  | .func _ => "<function>"
  | .obj _ => "<object>"

/-- Django `IntegerField.to_python` coercion core:
`int(self.re_decimal.sub('', str(value)))`.  `str(float)` keeps one
trailing `.0` which `re_decimal` strips, so floats succeed exactly when
they are whole numbers; integer strings parse; everything else raises.
(The `re_decimal` stripping of a literal `".0"` suffix inside a *string*
input is not modelled; no modelled input carries one.) -/
def coerceInt : Value → Option Int
  | .int n => some n
  | .float d =>
      if d.num % ((10 : Int) ^ d.exp) = 0 then some (Int.tdiv d.num ((10 : Int) ^ d.exp))
      else Option.none
  | .str s => parseIntLiteral s
  | _ => Option.none

/-- Django `FloatField.to_python` coercion core: `float(value)`.
`bool` is an `int` subclass in Python, so it converts to `0.0`/`1.0`. -/
def coerceFloat : Value → Option Dec
  | .int n => some ⟨n, 0⟩
  | .float d => some d
  | .bool b => some ⟨if b then 1 else 0, 0⟩
  | .str s => parseDecimal s
  | _ => Option.none

/-- `django.forms.IntegerField(required=req).clean(v)`:
`to_python` maps empty values to `None` and coerces the rest (raising
`"Enter a whole number."` on failure); `validate` then raises
`"This field is required."` when the result is empty and the field is
required. -/
def integerFieldClean (req : Bool) (v : Value) : Except VErr Value :=
  if isDjangoEmpty v then
    if req then .error (.flat ["This field is required."]) else .ok .none
  else
    match coerceInt v with
    | some n => .ok (.int n)
    | Option.none => .error (.flat ["Enter a whole number."])

/-- `django.forms.FloatField(required=req).clean(v)`; the invalid message
is `"Enter a number."`. -/
def floatFieldClean (req : Bool) (v : Value) : Except VErr Value :=
  if isDjangoEmpty v then
    if req then .error (.flat ["This field is required."]) else .ok .none
  else
    match coerceFloat v with
    | some d => .ok (.float d)
    | Option.none => .error (.flat ["Enter a number."])

/-- `django.forms.CharField(required=req).clean(v)`: empty values clean to
the empty string (`CharField.empty_value`), other values are stringified;
a required field whose cleaned value is empty raises
`"This field is required."`. -/
def charFieldClean (req : Bool) (v : Value) : Except VErr Value :=
  if isDjangoEmpty v then
    if req then .error (.flat ["This field is required."]) else .ok (.str "")
  else .ok (.str (pyStr v))

/-- `add_error` payload for one failed field
(`BaseDeserializer._get_error_dict`): a flat error stores its message
list under the field name, a nested error stores the nested dict. -/
def errEntryOf : VErr → ErrEntry
  | .flat l => .msgs l
  | .tree t => .nested t

mutual

/-- `field.clean(value)` dispatch for one declared field: the Django form
fields' `clean`, or `BaseDeserializer.clean` for a nested deserializer. -/
def fieldClean : DField → Value → Except VErr Value
  | .integer req, v => integerFieldClean req v
  | .float req, v => floatFieldClean req v
  | .char req, v => charFieldClean req v
  | .nested req schema, v => nestedClean req schema v

/-- `BaseDeserializer.clean(data)` (the nested-deserializer path):
`validate` raises `"This field is required."` on empty data for a required
nested field; otherwise the nested instance re-runs `full_clean` via its
`errors` property and either re-raises its `ErrorDict` as a single
structured error, lets the `"This field should be an object."` raise
escape to the parent, or returns its cleaned data. -/
def nestedClean (req : Bool) (schema : List (String × DField)) (v : Value) :
    Except VErr Value :=
  if isDeserializerEmpty v then
    if req then .error (.flat ["This field is required."]) else .ok v
  else
    match cleanFieldsRun schema v with
    | .error m => .error (.flat m)
    | .ok (errs, cleaned) =>
        if errs.isEmpty then .ok cleaned else .error (.tree errs)

/-- `BaseDeserializer._clean_fields` (after `full_clean` reset the error
dict and cleaned data): empty raw data short-circuits to itself verbatim;
non-mapping raw data raises `ValidationError(["This field should be an
object."])`; otherwise every declared field is cleaned from `D.get(name)`. -/
def cleanFieldsRun (schema : List (String × DField)) (v : Value) :
    Except Msgs (Errors × Value) :=
  if isDeserializerEmpty v then .ok ([], v)
  else
    match v with
    | .dict m =>
        let r := cleanFieldsLoop schema m
        .ok (r.1, .dict r.2)
    | _ => .error ["This field should be an object."]

/-- The `for name, field in self.declared_fields.items()` loop of
`_clean_fields`: fetch `D.get(name)` (absent → `None`), attempt
`field.clean`; on success store the cleaned value under `name`; on
`ValidationError` record the error under `name` only when the field is
required.  `declared_fields` is a Python dict, so names are unique and
insertion order is declaration order. -/
def cleanFieldsLoop (schema : List (String × DField))
    (m : List (String × Value)) : Errors × List (String × Value) :=
  match schema with
  | [] => ([], [])
  | (name, f) :: rest =>
      let raw := (dictGet m name).getD .none
      let r := cleanFieldsLoop rest m
      match fieldClean f raw with
      | .ok cv => (r.1, (name, cv) :: r.2)
      | .error e =>
          (if f.required then (name, errEntryOf e) :: r.1 else r.1, r.2)

end

/-- A live deserializer instance: the compiled schema, the raw input, the
two memo slots of `_init_data` (`_errors` starts as Python `None`,
`_cleaned_data` starts as Python `None`), and an instrumentation counter
of `full_clean` executions. -/
structure DeserializerState where
  schema : List (String × DField)
  rawData : Value
  errorsMemo : Option Errors
  cleanedMemo : Value
  fullCleanRuns : Nat

/-- `BaseDeserializer(data=...)`: `_init_data` leaves both memo slots
unset; no validation has run. -/
def initDeserializer (schema : List (String × DField)) (data : Value) :
    DeserializerState :=
  ⟨schema, data, Option.none, .none, 0⟩

/-- `full_clean()`: resets `_errors` to an empty `ErrorDict` and
`_cleaned_data` to `{}`, then runs `_clean_fields`.  When `_clean_fields`
raises (non-mapping data), the exception propagates and the freshly reset
memo slots are left behind.  Returns the raised messages (if any) next to
the mutated state. -/
def fullCleanRun (s : DeserializerState) :
    Except Msgs (Errors × Value) × DeserializerState :=
  match cleanFieldsRun s.schema s.rawData with
  | .ok (errs, cleaned) =>
      (.ok (errs, cleaned),
        { s with errorsMemo := some errs, cleanedMemo := cleaned,
                 fullCleanRuns := s.fullCleanRuns + 1 })
  | .error m =>
      (.error m,
        { s with errorsMemo := some [], cleanedMemo := .dict [],
                 fullCleanRuns := s.fullCleanRuns + 1 })

/-- The `errors` property: `if self._errors is None: self.full_clean()`,
then return `self._errors`.  A `ValidationError` raised inside
`full_clean` escapes the property access. -/
def accessErrors (s : DeserializerState) :
    Except Msgs (Errors × DeserializerState) :=
  match s.errorsMemo with
  | some e => .ok (e, s)
  | Option.none =>
      match fullCleanRun s with
      | (.ok (errs, _), s') => .ok (errs, s')
      | (.error m, _) => .error m

/-- `is_valid()`: `not self.errors`. -/
def isValidD (s : DeserializerState) :
    Except Msgs (Bool × DeserializerState) :=
  match accessErrors s with
  | .ok (e, s') => .ok (e.isEmpty, s')
  | .error m => .error m

/-- The `data` property: `if not self._cleaned_data: self.full_clean()`,
then return `self._cleaned_data` — the memo check is Python *truthiness*
of the cached cleaned data, not an `is None` check. -/
def accessData (s : DeserializerState) :
    Except Msgs (Value × DeserializerState) :=
  if pyTruthy s.cleanedMemo then .ok (s.cleanedMemo, s)
  else
    match fullCleanRun s with
    | (.ok (_, cleaned), s') => .ok (cleaned, s')
    | (.error m, _) => .error m

/-!
### Demo schemas (taken verbatim from the repository's test suite)
-/

/-- `SimpleDeserializer`: `foo = IntegerField(required=True)`,
`bar = FloatField(required=False)`. -/
def demoSimpleSchema : List (String × DField) :=
  [("foo", .integer true), ("bar", .float false)]

/-- `SimpleDeserializer` variant with two non-required fields:
`foo = IntegerField(required=False)`, `bar = CharField(required=False)`. -/
def demoOptionalSchema : List (String × DField) :=
  [("foo", .integer false), ("bar", .char false)]

/-- `NestedDeserializer`: `pk = IntegerField(required=True)`,
`bar = SimpleDeserializer(required=True)` whose nested schema declares
`foo = FloatField(required=True)`. -/
def demoNestedSchema : List (String × DField) :=
  [("pk", .integer true), ("bar", .nested true [("foo", .float true)])]

/-- The cleaned value a non-required field yields on empty input:
Django `CharField` cleans empty input to `""`, the numeric fields and a
nested deserializer clean it to `None`. -/
def DField.emptyClean : DField → Value
  | .char _ => .str ""
  | _ => .none

/-- A non-required field cleans an absent (`None`) raw value successfully
to its empty cleaned value — Django's `clean` only raises on empty input
when the field is required. -/
theorem fieldClean_none_of_not_required (f : DField)
    (hreq : f.required = false) : fieldClean f .none = .ok f.emptyClean := by
  cases f <;> simp_all [DField.required, fieldClean, integerFieldClean,
    floatFieldClean, charFieldClean, nestedClean, isDjangoEmpty,
    isDeserializerEmpty, DField.emptyClean]

/-- Every key of the error dict or of the cleaned data produced by the
`_clean_fields` loop is a declared field name. -/
theorem cleanFieldsLoop_lookup_of_not_mem (schema : List (String × DField))
    (m : List (String × Value)) (name : String)
    (h : name ∉ schema.map Prod.fst) :
    dictGet (cleanFieldsLoop schema m).1 name = Option.none
    ∧ dictGet (cleanFieldsLoop schema m).2 name = Option.none := by
  induction schema with
  | nil => simp [cleanFieldsLoop, dictGet]
  | cons hd rest ih =>
      obtain ⟨n', f'⟩ := hd
      simp only [List.map_cons, List.mem_cons, not_or] at h
      obtain ⟨hne, hrest⟩ := h
      have := ih hrest
      cases hcl : fieldClean f' ((dictGet m n').getD .none) with
      | ok cv =>
          simp [cleanFieldsLoop, hcl, dictGet, Ne.symm hne, this.1, this.2]
      | error e =>
          cases hr : f'.required <;>
            simp [cleanFieldsLoop, hcl, hr, dictGet, Ne.symm hne, this.1, this.2]

/-- C3 (counterexample): with the repository's own test schema
(`foo = IntegerField(required=False)`, `bar = CharField(required=False)`)
and the empty payload `{}` — both raw values absent — `_clean_fields`
records no error but stores `foo: None` and `bar: ""` in the cleaned data:
the keys ARE present, `foo` with an explicit null, refuting the claim that
an absent non-required field is omitted from cleaned data. -/
theorem nonrequired_absent_field_present_cex :
    cleanFieldsRun demoOptionalSchema (.dict [])
      = .ok ([], .dict [("foo", .none), ("bar", .str "")])
    ∧ dictGet [("foo", Value.none), ("bar", Value.str "")] "foo"
      = some Value.none := by
  refine ⟨?_, rfl⟩
  simp [cleanFieldsRun, cleanFieldsLoop, fieldClean, integerFieldClean,
    charFieldClean, isDeserializerEmpty, isDjangoEmpty, dictGet,
    demoOptionalSchema]

/-- C3 (amended): for a declared non-required field, a raw value that is
*present but uncoercible* is silently omitted from cleaned data (no key)
with no error recorded; but an *absent* raw value (fetched as `None`)
cleans successfully to the field's empty cleaned value (`None` for
numeric/nested fields, `""` for char fields), which is stored under the
field's key. -/
theorem nonrequired_field_cleaning (schema : List (String × DField))
    (m : List (String × Value)) (name : String) (f : DField)
    (hmem : (name, f) ∈ schema) (hnodup : (schema.map Prod.fst).Nodup)
    (hreq : f.required = false) :
    (∀ e : VErr, fieldClean f ((dictGet m name).getD .none) = .error e →
      dictGet (cleanFieldsLoop schema m).2 name = Option.none
      ∧ dictGet (cleanFieldsLoop schema m).1 name = Option.none)
    ∧ (dictGet m name = Option.none →
      dictGet (cleanFieldsLoop schema m).2 name = some f.emptyClean
      ∧ dictGet (cleanFieldsLoop schema m).1 name = Option.none) := by
  induction schema with
  | nil => cases hmem
  | cons hd rest ih =>
      obtain ⟨n', f'⟩ := hd
      simp only [List.map_cons, List.nodup_cons] at hnodup
      obtain ⟨hn'
        , hndrest⟩ := hnodup
      rcases List.mem_cons.1 hmem with hhd | htl
      · -- the field under scrutiny is the head of the declaration list
        obtain ⟨hn, hf⟩ := Prod.mk.injEq .. ▸ hhd
        subst hn; subst hf
        have hnotrest : name ∉ rest.map Prod.fst := hn'
        have hkeys := cleanFieldsLoop_lookup_of_not_mem rest m name hnotrest
        constructor
        · intro e hcl
          simp [cleanFieldsLoop, hcl, hreq, hkeys.1, hkeys.2]
        · intro habs
          have hok : fieldClean f ((dictGet m name).getD .none)
              = .ok f.emptyClean := by
            rw [habs]; exact fieldClean_none_of_not_required f hreq
          simp [cleanFieldsLoop, hok, dictGet, hkeys.1]
      · -- the field under scrutiny lies in the tail
        have hname : name ∈ rest.map Prod.fst :=
          List.mem_map.2 ⟨(name, f), htl, rfl⟩
        have hne : n' ≠ name := fun h => hn' (h ▸ hname)
        have := ih htl hndrest
        constructor
        · intro e hcl
          have hrec := this.1 e hcl
          cases hcl' : fieldClean f' ((dictGet m n').getD .none) with
          | ok cv => simp [cleanFieldsLoop, hcl', dictGet, hne, hrec.1, hrec.2]
          | error e' =>
              cases hr : f'.required <;>
                simp [cleanFieldsLoop, hcl', hr, dictGet, hne, hrec.1, hrec.2]
        · intro habs
          have hrec := this.2 habs
          cases hcl' : fieldClean f' ((dictGet m n').getD .none) with
          | ok cv => simp [cleanFieldsLoop, hcl', dictGet, hne, hrec.1, hrec.2]
          | error e' =>
              cases hr : f'.required <;>
                simp [cleanFieldsLoop, hcl', hr, dictGet, hne, hrec.1, hrec.2]

/-- C3 (witness): on the test schema, `foo = IntegerField(required=False)`
with the uncoercible payload `{"foo": "abc"}` is omitted from cleaned
data, while with the empty payload `{}` it is stored as `foo: None`. -/
theorem nonrequired_field_cleaning_witness :
    dictGet (cleanFieldsLoop demoOptionalSchema [("foo", Value.str "abc")]).2 "foo"
      = Option.none
    ∧ dictGet (cleanFieldsLoop demoOptionalSchema []).2 "foo"
      = some Value.none :=
  ⟨((nonrequired_field_cleaning demoOptionalSchema [("foo", Value.str "abc")]
      "foo" (.integer false) (List.Mem.head _) (by decide) rfl).1
      (.flat ["Enter a whole number."])
      (by simp only [fieldClean]; rfl)).1,
   ((nonrequired_field_cleaning demoOptionalSchema [] "foo" (.integer false)
      (List.Mem.head _) (by decide) rfl).2 rfl).1⟩

/-- C2 (counterexample): a top-level deserializer whose raw data is `3`
(neither an empty sentinel nor a mapping) does *not* record the error in
its error tree: the `ValidationError` raised by `_clean_fields` is not
caught by `full_clean`, so it escapes the `errors` property and
`is_valid()` as an uncaught exception. -/
theorem non_mapping_top_level_escapes_cex :
    accessErrors (initDeserializer demoSimpleSchema (.int 3))
      = .error ["This field should be an object."]
    ∧ isValidD (initDeserializer demoSimpleSchema (.int 3))
      = .error ["This field should be an object."] := by
  constructor <;>
    simp [accessErrors, isValidD, initDeserializer, fullCleanRun,
      cleanFieldsRun, isDeserializerEmpty]

/-- C2 (amended): raw data that is neither an empty sentinel nor a mapping
makes `_clean_fields` raise `ValidationError(["This field should be an
object."])`.  For a top-level deserializer the raise escapes the
`errors`/`is_valid` accessors uncaught; when the deserializer is nested as
a field of a parent, the parent's field loop catches it and records the
single message under the field's name in its own error tree, making the
parent invalid (shown on the repository's nested test payload
`{"pk": "3", "bar": 3}`). -/
theorem non_mapping_data_fails_whole_schema
    (schema sub : List (String × DField)) (v : Value) (req : Bool)
    (hne : isDeserializerEmpty v = false) (hnd : isDict v = false) :
    cleanFieldsRun schema v = .error ["This field should be an object."]
    ∧ accessErrors (initDeserializer schema v)
      = .error ["This field should be an object."]
    ∧ fieldClean (.nested req sub) v
      = .error (.flat ["This field should be an object."])
    ∧ isValidD (initDeserializer demoNestedSchema
        (.dict [("pk", .str "3"), ("bar", .int 3)]))
      = .ok (false, ⟨demoNestedSchema,
          .dict [("pk", .str "3"), ("bar", .int 3)],
          some [("bar", .msgs ["This field should be an object."])],
          .dict [("pk", .int 3)], 1⟩) := by
  have h1 : cleanFieldsRun schema v
      = .error ["This field should be an object."] := by
    cases v <;> simp_all [cleanFieldsRun, isDeserializerEmpty, isDict]
  have h2 : cleanFieldsRun sub v
      = .error ["This field should be an object."] := by
    cases v <;> simp_all [cleanFieldsRun, isDeserializerEmpty, isDict]
  have hc : coerceInt (Value.str "3") = some (3 : Int) := by decide
  refine ⟨h1, ?_, ?_, ?_⟩
  · simp [accessErrors, initDeserializer, fullCleanRun, h1]
  · simp [fieldClean, nestedClean, hne, h2]
  · simp [isValidD, accessErrors, initDeserializer, fullCleanRun,
      cleanFieldsRun, cleanFieldsLoop, fieldClean, nestedClean,
      integerFieldClean, floatFieldClean, isDeserializerEmpty,
      isDjangoEmpty, dictGet, demoNestedSchema, errEntryOf, hc,
      DField.required]

/-- C2 (witness): instantiating the amended theorem at the non-empty
non-mapping input `[]` (a JSON array) on the simple test schema. -/
theorem non_mapping_data_fails_whole_schema_witness :
    cleanFieldsRun demoSimpleSchema (.list [])
      = .error ["This field should be an object."] :=
  (non_mapping_data_fails_whole_schema demoSimpleSchema demoSimpleSchema
    (.list []) true rfl rfl).1

/-- C4 (counterexample): on input `""` (one of the deserializer's empty
sentinels) the cleaned result is `""` itself, which is falsy; since the
`data` property's memo check is `if not self._cleaned_data`, a second
access to `data` runs `full_clean` again — the run counter goes from 1
to 2 — refuting "at most once per instance lifetime". -/
theorem data_property_reruns_full_clean_cex :
    accessData (initDeserializer demoSimpleSchema (.str ""))
      = .ok (.str "", ⟨demoSimpleSchema, .str "", some [], .str "", 1⟩)
    ∧ accessData ⟨demoSimpleSchema, .str "", some [], .str "", 1⟩
      = .ok (.str "", ⟨demoSimpleSchema, .str "", some [], .str "", 2⟩) := by
  constructor <;>
    simp [accessData, initDeserializer, fullCleanRun, cleanFieldsRun,
      isDeserializerEmpty, pyTruthy]

/-- C4 (amended): validation is lazy (a fresh instance has run nothing and
no memo); the `errors` property is memoized — after any successful access,
further accesses return the same result without mutating the state; the
`data` property is memoized only when the cleaned result is *truthy*: when
the cleaned result is falsy (empty mapping, null, or empty string), every
further `data` access runs `full_clean` again (same result, incremented
run counter), because its memo check is Python truthiness rather than an
`is None` test. -/
theorem lazy_validation_memoization (schema : List (String × DField))
    (raw : Value) :
    ((initDeserializer schema raw).fullCleanRuns = 0
      ∧ (initDeserializer schema raw).errorsMemo = Option.none)
    ∧ (∀ (s : DeserializerState) (e : Errors) (s₁ : DeserializerState),
        accessErrors s = .ok (e, s₁) → accessErrors s₁ = .ok (e, s₁))
    ∧ (∀ (s : DeserializerState) (v : Value) (s₁ : DeserializerState),
        accessData s = .ok (v, s₁) → pyTruthy v = true →
        accessData s₁ = .ok (v, s₁))
    ∧ (∀ (s : DeserializerState) (v : Value) (s₁ : DeserializerState),
        accessData s = .ok (v, s₁) → pyTruthy v = false →
        accessData s₁
          = .ok (v, { s₁ with fullCleanRuns := s₁.fullCleanRuns + 1 })) := by
  refine ⟨⟨rfl, rfl⟩, ?_, ?_, ?_⟩
  · intro s e s₁ h
    unfold accessErrors fullCleanRun at h ⊢
    cases hm : s.errorsMemo with
    | some e' =>
        rw [hm] at h
        simp only [Except.ok.injEq, Prod.mk.injEq] at h
        obtain ⟨he, hs⟩ := h
        subst he; subst hs
        simp [hm]
    | none =>
        rw [hm] at h
        cases hr : cleanFieldsRun s.schema s.rawData with
        | ok p =>
            rw [hr] at h
            simp only [Except.ok.injEq, Prod.mk.injEq] at h
            obtain ⟨he, hs⟩ := h
            subst he; subst hs
            simp
        | error m => rw [hr] at h; simp at h
  · intro s v s₁ h htr
    unfold accessData fullCleanRun at h ⊢
    by_cases hm : pyTruthy s.cleanedMemo
    · rw [if_pos hm] at h
      simp only [Except.ok.injEq, Prod.mk.injEq] at h
      obtain ⟨hv, hs⟩ := h
      subst hv; subst hs
      rw [if_pos hm]
    · rw [if_neg hm] at h
      cases hr : cleanFieldsRun s.schema s.rawData with
      | ok p =>
          rw [hr] at h
          simp only [Except.ok.injEq, Prod.mk.injEq] at h
          obtain ⟨hv, hs⟩ := h
          subst hv; subst hs
          simp [htr]
      | error m => rw [hr] at h; simp at h
  · intro s v s₁ h htr
    unfold accessData fullCleanRun at h ⊢
    by_cases hm : pyTruthy s.cleanedMemo
    · rw [if_pos hm] at h
      simp only [Except.ok.injEq, Prod.mk.injEq] at h
      obtain ⟨hv, hs⟩ := h
      subst hv
      rw [hm] at htr; cases htr
    · rw [if_neg hm] at h
      cases hr : cleanFieldsRun s.schema s.rawData with
      | ok p =>
          rw [hr] at h
          simp only [Except.ok.injEq, Prod.mk.injEq] at h
          obtain ⟨hv, hs⟩ := h
          subst hv; subst hs
          obtain ⟨errs, cleaned⟩ := p
          simp [htr, hr]
      | error m => rw [hr] at h; simp at h

/-- C4 (witness): a simple-schema instance whose cleaned result is the
truthy mapping `{"foo": 3}` — a repeated `data` access returns the
memoized result with the state unchanged. -/
theorem lazy_validation_memoization_witness :
    accessData ⟨demoSimpleSchema,
        .dict [("foo", .int 3)], some [], .dict [("foo", .int 3)], 1⟩
      = .ok (.dict [("foo", .int 3)],
        ⟨demoSimpleSchema, .dict [("foo", .int 3)], some [],
          .dict [("foo", .int 3)], 1⟩) :=
  (lazy_validation_memoization demoSimpleSchema (.dict [("foo", .int 3)])).2.2.1
    ⟨demoSimpleSchema, .dict [("foo", .int 3)], some [],
      .dict [("foo", .int 3)], 1⟩
    (.dict [("foo", .int 3)])
    ⟨demoSimpleSchema, .dict [("foo", .int 3)], some [],
      .dict [("foo", .int 3)], 1⟩
    (by unfold accessData; rfl) rfl

/-!
## Serialization engine (`django_rest/serializers/`)

`SerializerMeta` compiles each declared field once per class into a tuple
`(name, getter, to_value, call, required, pass_self)`
(`_compile_field_to_tuple`); `Serializer._serialize` then folds the
compiled tuples over the instance.  A compiled tuple is modelled by
`CompiledField`: the getter is a function of the source object returning
either a value or a raised Python exception; `toValue` is `none` exactly
when `Field._is_to_value_overridden()` was false at compile time.
-/

/-- Membership of an exception class in `_serialize`'s caught tuple
`(KeyError, AttributeError, TypeError, ValueError)`. -/
def isCaughtExc : PyExc → Bool
  | .keyError _ => true
  | .attributeError _ => true
  | .typeError _ => true
  | .valueError _ => true
  | .other _ => false

/-- `str(e)` of a raised exception. -/
def excMsg : PyExc → String
  | .keyError m => m
  | .attributeError m => m
  | .typeError m => m
  | .valueError m => m
  | .other m => m

/-- `result()` — invoking a fetched value as a zero-argument callable
(`call=True` fields); non-callables raise `TypeError`. -/
def pyCall : Value → Except PyExc Value
  | .func r => r
  | _ => .error (.typeError "object is not callable")

/-- `value is None` test. -/
def Value.isNone : Value → Bool
  | .none => true
  | _ => false

/-- One compiled field tuple of `_compile_field_to_tuple`. -/
structure CompiledField where
  name : String
  getter : Value → Except PyExc Value
  toValue : Option (Value → Except PyExc Value)
  call : Bool
  required : Bool
  passSelf : Bool

/-- Outcome of processing one compiled field inside `_serialize`'s loop:
store the result under the output name, silently skip the field, abort the
whole serialization with a `SerializationError`, or propagate an exception
outside the caught tuple. -/
inductive FieldOutcome where
  | store (v : Value)
  | skip
  | abort (msg : String)
  | uncaught (e : PyExc)

/-- The body of `Serializer._serialize`'s per-field `try`:
`pass_self` getters are called with the serializer and their result is
taken verbatim; plain getters are called with the inst only, and when
the field is required or the result is not `None`, the result is
optionally invoked (`call`) and optionally coerced (`to_value`).  A caught
exception aborts when the field is required and skips it otherwise; other
exceptions propagate. -/
def serializeFieldStep (f : CompiledField) (inst : Value) : FieldOutcome :=
  let attempt : Except PyExc Value :=
    if f.passSelf then f.getter inst
    else
      match f.getter inst with
      | .error e => .error e
      | .ok result =>
          if f.required || !result.isNone then
            match (if f.call then pyCall result else .ok result) with
            | .error e => .error e
            | .ok result =>
                match f.toValue with
                | some tv => tv result
                | Option.none => .ok result
          else .ok result
  match attempt with
  | .ok v => .store v
  | .error e =>
      if isCaughtExc e then
        if f.required then .abort (excMsg e) else .skip
      else .uncaught e

/-- A failed serialization: `SerializationError(str(e))` raised for a
required field, or an exception outside the caught tuple propagating. -/
inductive SerError where
  | serializationError (msg : String)
  | uncaught (e : PyExc)

/-- The `for name, getter, to_value, call, required, pass_self in fields`
loop of `_serialize`, accumulating `serialized_value[name] = result`. -/
def serializeGo (fields : List CompiledField) (inst : Value)
    (acc : List (String × Value)) : Except SerError (List (String × Value)) :=
  match fields with
  | [] => .ok acc
  | f :: rest =>
      match serializeFieldStep f inst with
      | .store v => serializeGo rest inst (dictSet acc f.name v)
      | .skip => serializeGo rest inst acc
      | .abort msg => .error (.serializationError msg)
      | .uncaught e => .error (.uncaught e)

/-- `Serializer._serialize(instance, fields)`. -/
def serialize (fields : List CompiledField) (inst : Value) :
    Except SerError (List (String × Value)) :=
  serializeGo fields inst []

/-- A live serializer instance: compiled fields, target instance, the
`many` flag, the `_data` memo (`None` until the first `data` access), and
an instrumentation counter of `to_value` computations. -/
structure SerializerState where
  fields : List CompiledField
  inst : Value
  many : Bool
  dataMemo : Option Value
  computeCount : Nat

/-- `Serializer(instance, many=...)`: `self._data = None`. -/
def initSerializer (fields : List CompiledField) (inst : Value)
    (many : Bool) : SerializerState :=
  ⟨fields, inst, many, Option.none, 0⟩

/-- `Serializer.to_value(instance)`: with `many=True` every element of the
source iterable is projected independently (order-preserving); otherwise
the single inst is projected. -/
def serializerToValue (s : SerializerState) : Except SerError Value :=
  if s.many then
    match s.inst with
    | .list l => (l.mapM (serialize s.fields)).map (fun ms => .list (ms.map .dict))
    | _ => .error (.uncaught (.typeError "object is not iterable"))
  else (serialize s.fields s.inst).map .dict

/-- The `data` property: `if self._data is None: self._data =
self.to_value(self.instance)`, then return `self._data` — an `is None`
memo check, unlike the deserializer's truthiness check. -/
def accessSerData (s : SerializerState) :
    Except SerError (Value × SerializerState) :=
  match s.dataMemo with
  | some v => .ok (v, s)
  | Option.none =>
      match serializerToValue s with
      | .ok v =>
          .ok (v, { s with dataMemo := some v,
                           computeCount := s.computeCount + 1 })
      | .error e => .error e

/-!
### Serializer field classes (`django_rest/serializers/fields.py`)
-/

/-- `IntegerField.to_value = staticmethod(int)`: Python `int(value)`.
`bool` is an `int` subclass (`int(True) = 1`); floats truncate toward
zero (`Int.div` is T-division); strings must be integer literals; `None` and containers raise. -/
def pyIntToValue : Value → Except PyExc Value
  | .bool b => .ok (.int (if b then 1 else 0))
  | .int n => .ok (.int n)
  | .float d => .ok (.int (Int.tdiv d.num ((10 : Int) ^ d.exp)))
  | .str s =>
      match parseIntLiteral s with
      | some n => .ok (.int n)
      | Option.none => .error (.valueError "invalid literal for int() with base 10")
  | _ => .error (.typeError "int() argument must be a string or a number")

/-- `CharField.to_value = staticmethod(six.text_type)`: Python `str`. -/
def pyStrToValue (v : Value) : Except PyExc Value := .ok (.str (pyStr v))

/-- `FloatField.to_value = staticmethod(float)`. -/
def pyFloatToValue : Value → Except PyExc Value
  | .bool b => .ok (.float ⟨if b then 1 else 0, 0⟩)
  | .int n => .ok (.float ⟨n, 0⟩)
  | .float d => .ok (.float d)
  | .str s =>
      match parseDecimal s with
      | some d => .ok (.float d)
      | Option.none => .error (.valueError "could not convert string to float")
  | _ => .error (.typeError "float() argument must be a string or a number")

/-- `BooleanField.to_value = staticmethod(bool)`. -/
def pyBoolToValue (v : Value) : Except PyExc Value := .ok (.bool (pyTruthy v))

/-- The serializer field classes that can be handed to `ListField`. -/
inductive SerFieldKind where
  | base
  | char
  | integer
  | float
  | boolean
  | constant
  | method
  | serializer

/-- `__class__.__name__` of a field instance. -/
def serFieldClassName : SerFieldKind → String
  | .base => "Field"
  | .char => "CharField"
  | .integer => "IntegerField"
  | .float => "FloatField"
  | .boolean => "BooleanField"
  | .constant => "ConstantField"
  | .method => "MethodField"
  | .serializer => "Serializer"

/-- `Field._is_to_value_overridden()` per field class: the primitive typed
fields override `to_value`, and so does `Serializer`; the base `Field`,
`ConstantField` and `MethodField` inherit the identity implementation
(marked `_base_implementation`). -/
def isToValueOverridden : SerFieldKind → Bool
  | .char => true
  | .integer => true
  | .float => true
  | .boolean => true
  | .serializer => true
  | .base => false
  | .constant => false
  | .method => false

/-- `isinstance(field_instance, Serializer)`. -/
def isSerializerInstance : SerFieldKind → Bool
  | .serializer => true
  | _ => false

/-- `_is_valid_field_instance`: the two `assert` statements run by
`ListField` before it builds anything — given a `Serializer` instance, or
a field whose `to_value` is not overridden (base/constant/method fields),
an `AssertionError` with the corresponding message is raised at
construction time. -/
def listFieldCheck (k : SerFieldKind) : Except String Unit :=
  if isSerializerInstance k then
    .error "Cannot call `ListField()` with a Serializer object. An option `many=True` is available for serializers."
  else if !isToValueOverridden k then
    .error ("`ListField()` can only be called with primitive-types fields. Given field type: "
      ++ serFieldClassName k)
  else .ok ()

/-- A Python list comprehension `[f(v) for v in l]`: elements are mapped
left to right and the first raised exception propagates. -/
def mapComprehension (f : Value → Except PyExc Value) :
    List Value → Except PyExc (List Value)
  | [] => .ok []
  | v :: rest =>
      match f v with
      | .error e => .error e
      | .ok w =>
          match mapComprehension f rest with
          | .error e => .error e
          | .ok ws => .ok (w :: ws)

/-- The `to_value` of the class generated by `ListField`:
`[field_instance.to_value(v) for v in value]`.  (In Python any iterable
works — strings and mappings included; the claims only exercise lists, and
a non-iterable raises `TypeError`.) -/
def listFieldToValue (elemToValue : Value → Except PyExc Value) :
    Value → Except PyExc Value
  | .list l =>
      match mapComprehension elemToValue l with
      | .ok ws => .ok (.list ws)
      | .error e => .error e
  | _ => .error (.typeError "object is not iterable")

/-- `ListField(field_instance)`: runs the construction-time assertions and
only then returns the mapped-coercion field — so the assertion fires
before any serialization can run. -/
def ListFieldConstruct (k : SerFieldKind)
    (elemToValue : Value → Except PyExc Value) :
    Except String (Value → Except PyExc Value) :=
  match listFieldCheck k with
  | .error msg => .error msg
  | .ok _ => .ok (listFieldToValue elemToValue)

mutual

/-- `ConstantField._is_primitive_const`: the constant must be a primitive
(`bool`/`int`/`float`/`str`/`None`) or an iterable/mapping of such,
recursively.  Mapping keys must be strings — always true in this model,
where mapping keys are strings by construction.  Values outside
`ALLOWED_CONSTANT_TYPES` (callables, arbitrary objects) are rejected. -/
def isPrimitiveConst : Value → Bool
  | .none => true
  | .bool _ => true
  | .int _ => true
  | .float _ => true
  | .str _ => true
  | .dict m => isPrimitiveConstVals m
  | .list l => isPrimitiveConstList l
  | .func _ => false
  | .obj _ => false

/-- `all(cls._is_primitive_const(element) for element in constant)`. -/
def isPrimitiveConstList : List Value → Bool
  | [] => true
  | v :: rest => isPrimitiveConst v && isPrimitiveConstList rest

/-- `all(cls._is_primitive_const(value) for value in constant.values())`. -/
def isPrimitiveConstVals : List (String × Value) → Bool
  | [] => true
  | (_, v) :: rest => isPrimitiveConst v && isPrimitiveConstVals rest

end

/-- A constructed `ConstantField` instance: the constant, the `required`
flag and the `_is_primitive` flag computed at construction. -/
structure ConstantFieldInst where
  constant : Value
  required : Bool
  isPrimitive : Bool

/-- `ConstantField.__init__`: computes `_is_primitive` and raises a
`SerializationError` when the field is required and the constant is not
primitive.  (The source formats the offending value and its class name
into the message; the fixed prefix is modelled.) -/
def constantFieldInit (constant : Value) (required : Bool) :
    Except String ConstantFieldInst :=
  let isPrim := isPrimitiveConst constant
  if !isPrim && required then
    .error "Only primitive types are accepted in `ConstantField` (int, float, str, bool, None, unicode) and iterables/dict of primitive types."
  else .ok ⟨constant, required, isPrim⟩

/-- `ConstantField.as_getter`: the getter ignores the source object and
returns the constant, except that a non-required non-primitive constant
raises `TypeError` at evaluation time (so `_serialize` skips the field). -/
def constantFieldGetter (f : ConstantFieldInst) : Value → Except PyExc Value :=
  fun _ =>
    if !f.isPrimitive && !f.required then
      .error (.typeError "Non-required field: Non primitive constant given")
    else .ok f.constant

/-- The compiled tuple of a `ConstantField`: it overrides neither
`to_value` (identity) nor `getter_needs_serializer_as_arg`, and sets
`call = False` in `__init__`. -/
def compileConstantField (f : ConstantFieldInst) (name : String) :
    CompiledField :=
  ⟨name, constantFieldGetter f, Option.none, false, f.required, false⟩

/-- C7: `ListField(IntegerField()).to_value([5.3, "4", 3]) == [5, 4, 3]`
(the wrapped primitive coercion is mapped elementwise), and constructing
`ListField` with a `Serializer` instance or a `MethodField` instance
raises the corresponding construction-time `AssertionError`, before any
serialization runs. -/
theorem list_field_behaviour :
    listFieldToValue pyIntToValue
        (.list [.float ⟨53, 1⟩, .str "4", .int 3])
      = .ok (.list [.int 5, .int 4, .int 3])
    ∧ ListFieldConstruct .serializer pyIntToValue
      = .error "Cannot call `ListField()` with a Serializer object. An option `many=True` is available for serializers."
    ∧ ListFieldConstruct .method pyIntToValue
      = .error "`ListField()` can only be called with primitive-types fields. Given field type: MethodField" := by
  refine ⟨rfl, rfl, rfl⟩

/-- C8: serializer output is computed on the first `data` access and
cached: a fresh instance holds no data and has computed nothing; any
successful access memoizes, and a repeated access returns the very value
and state of the previous one — the stored mapping object, with no
recomputation (the compute counter does not move); the first access on a
fresh instance computes exactly once. -/
theorem serializer_data_cached (fields : List CompiledField) (inst : Value)
    (many : Bool) :
    ((initSerializer fields inst many).dataMemo = Option.none
      ∧ (initSerializer fields inst many).computeCount = 0)
    ∧ (∀ (s : SerializerState) (v : Value) (s₁ : SerializerState),
        accessSerData s = .ok (v, s₁) → accessSerData s₁ = .ok (v, s₁))
    ∧ (∀ (v : Value) (s₁ : SerializerState),
        accessSerData (initSerializer fields inst many) = .ok (v, s₁) →
        s₁.dataMemo = some v ∧ s₁.computeCount = 1) := by
  refine ⟨⟨rfl, rfl⟩, ?_, ?_⟩
  · intro s v s₁ h
    unfold accessSerData at h ⊢
    cases hm : s.dataMemo with
    | some v' =>
        rw [hm] at h
        simp only [Except.ok.injEq, Prod.mk.injEq] at h
        obtain ⟨hv, hs⟩ := h
        subst hv; subst hs
        simp [hm]
    | none =>
        rw [hm] at h
        cases hr : serializerToValue s with
        | ok v' =>
            rw [hr] at h
            simp only [Except.ok.injEq, Prod.mk.injEq] at h
            obtain ⟨hv, hs⟩ := h
            subst hv; subst hs
            simp
        | error e => rw [hr] at h; simp at h
  · intro v s₁ h
    unfold accessSerData initSerializer at h
    cases hr : serializerToValue (initSerializer fields inst many) with
    | ok v' =>
        unfold initSerializer at hr
        rw [hr] at h
        simp only [Except.ok.injEq, Prod.mk.injEq] at h
        obtain ⟨hv, hs⟩ := h
        subst hv; subst hs
        simp
    | error e =>
        unfold initSerializer at hr
        rw [hr] at h
        simp at h

/-- C8 (witness): a field-less serializer over `None` computes `{}` on
first access, and the second access returns it unchanged. -/
theorem serializer_data_cached_witness :
    accessSerData ⟨[], .none, false, some (.dict []), 1⟩
      = .ok (.dict [], ⟨[], .none, false, some (.dict []), 1⟩) :=
  (serializer_data_cached [] .none false).2.1
    (initSerializer [] .none false) (.dict [])
    ⟨[], .none, false, some (.dict []), 1⟩ rfl

/-- C9: constructing a required `ConstantField` with a non-primitive
constant raises a `SerializationError` at construction time; a
non-required one constructs fine, but its getter raises `TypeError` at
serialization time, which `_serialize` catches and — the field being
non-required — swallows, omitting the field from the output mapping with
no error. -/
theorem constant_field_required_asymmetry (c : Value) (name : String)
    (inst : Value) (hnp : isPrimitiveConst c = false) :
    constantFieldInit c true
      = .error "Only primitive types are accepted in `ConstantField` (int, float, str, bool, None, unicode) and iterables/dict of primitive types."
    ∧ constantFieldInit c false = .ok ⟨c, false, false⟩
    ∧ constantFieldGetter ⟨c, false, false⟩ inst
      = .error (.typeError "Non-required field: Non primitive constant given")
    ∧ serialize [compileConstantField ⟨c, false, false⟩ name] inst
      = .ok [] := by
  refine ⟨?_, ?_, rfl, ?_⟩
  · simp [constantFieldInit, hnp]
  · simp [constantFieldInit, hnp]
  · simp [serialize, serializeGo, serializeFieldStep, compileConstantField,
      constantFieldGetter, isCaughtExc]

/-- C9 (witness): instantiated at the non-primitive constant `object()`
(an opaque object). -/
theorem constant_field_required_asymmetry_witness :
    serialize [compileConstantField ⟨.obj 0, false, false⟩ "foo"] .none
      = .ok [] :=
  (constant_field_required_asymmetry (.obj 0) "foo" .none
    (by simp [isPrimitiveConst])).2.2.2

/-- C10: a compiled field whose getter needs the serializer instance
(`pass_self = true`, i.e. a method field) stores the getter's return value
verbatim under its output name: its processing is independent of the
`call` flag and the compiled `to_value`, and the required-or-non-null gate
never fires; those steps apply only to plain one-argument-getter fields,
where an overridden `to_value` is applied and a non-required `None` result
bypasses the coercion. -/
theorem pass_self_fields_skip_processing (name : String)
    (g : Value → Except PyExc Value)
    (tv : Option (Value → Except PyExc Value)) (c r : Bool) (inst : Value) :
    serializeFieldStep ⟨name, g, tv, c, r, true⟩ inst
      = serializeFieldStep ⟨name, g, Option.none, false, r, true⟩ inst
    ∧ (∀ v : Value, g inst = .ok v →
        serializeFieldStep ⟨name, g, tv, c, r, true⟩ inst = .store v)
    ∧ (∀ v : Value, g inst = .ok v →
        serialize [⟨name, g, tv, c, r, true⟩] inst = .ok [(name, v)])
    ∧ (∀ (v w : Value) (tvf : Value → Except PyExc Value),
        g inst = .ok v → tvf v = .ok w →
        serializeFieldStep ⟨name, g, some tvf, false, true, false⟩ inst
          = .store w)
    ∧ (∀ tvf : Value → Except PyExc Value, g inst = .ok .none →
        serializeFieldStep ⟨name, g, some tvf, false, false, false⟩ inst
          = .store .none) := by
  refine ⟨rfl, ?_, ?_, ?_, ?_⟩
  · intro v h
    simp [serializeFieldStep, h]
  · intro v h
    simp [serialize, serializeGo, serializeFieldStep, h, dictSet]
  · intro v w tvf hg htv
    simp [serializeFieldStep, hg, htv, Except.bind]
  · intro tvf h
    simp [serializeFieldStep, h, Value.isNone, Except.bind]

/-- C10 (witness): a method field whose getter yields `7` stores `7`
verbatim even though a coercion function and the `call` flag are set. -/
theorem pass_self_fields_skip_processing_witness :
    serializeFieldStep
        ⟨"m", fun _ => .ok (.int 7), some pyStrToValue, true, true, true⟩ .none
      = .store (.int 7) :=
  (pass_self_fields_skip_processing "m" (fun _ => .ok (.int 7))
    (some pyStrToValue) true true .none).2.1 (.int 7) rfl

/-!
## Request decoration (`django_rest/decorators/utils.py`,
`django_rest/http/exceptions.py`, `django_rest/http/methods.py`)

`build_function_wrapper` wires the permission predicate and the
deserializer map around a view function.  The transport request is
modelled by `Request`: its method, content type, the pre-parsed query
and form mappings, and the outcome of `json.loads(request.body)` (either
a value, or the text of the raised parse exception).  The wrapped view is
a function of the request, the normalized query params and the cleaned
deserialized data; it returns a response or raises.
-/

/-- The typed API exceptions of `http/exceptions.py`
(`InternalServerError` keeps the `BaseAPIException` defaults). -/
inductive ApiExc where
  | badRequest
  | notAuthenticated
  | permissionDenied
  | notFound
  | methodNotAllowed
  | unsupportedMediaType
  | internalServerError
  | serviceUnavailable
deriving DecidableEq, Repr

/-- `STATUS_CODE` of each typed exception. -/
def STATUS_CODE : ApiExc → Nat
  | .badRequest => 400
  | .notAuthenticated => 401
  | .permissionDenied => 403
  | .notFound => 404
  | .methodNotAllowed => 405
  | .unsupportedMediaType => 415
  | .internalServerError => 500
  | .serviceUnavailable => 503

/-- `RESPONSE_MESSAGE` of each typed exception. -/
def RESPONSE_MESSAGE : ApiExc → String
  | .badRequest => "Bad request."
  | .notAuthenticated => "Unauthorized operation. Maybe forgot the authentication step ?"
  | .permissionDenied => "Forbidden operation. Make sure you have the right permissions."
  | .notFound => "The requested resource is not found."
  | .methodNotAllowed => "HTTP Method not allowed."
  | .unsupportedMediaType => "Unsupported Media Type. Check your request's Content-Type."
  | .internalServerError => "An unknown server error occured."
  | .serviceUnavailable => "The requested service is unavailable."

/-- An exception travelling through the wrapper's `try` block: a typed
`BaseAPIException`, or any other Python exception carrying its text. -/
inductive ChainExc where
  | api (e : ApiExc)
  | generic (msg : String)

/-- `SUPPORTING_PAYLOAD_METHODS` (`POST`, `PUT`, `PATCH`). -/
def SUPPORTING_PAYLOAD_METHODS : List String := ["POST", "PUT", "PATCH"]

/-- `FORMS_CONTENT_TYPES`. -/
def FORMS_CONTENT_TYPES : List String :=
  ["application/x-www-form-urlencoded", "multipart/form-data"]

/-- The transport request, as the wrapper reads it. -/
structure Request where
  method : String
  contentType : String
  getParams : List (String × List String)
  postParams : List (String × List String)
  jsonBody : Except String Value

/-- `transform_query_dict_into_regular_dict`: a repeated key keeps its
list of values, a single occurrence collapses to the scalar.  (A
`QueryDict` never maps a key to an empty list.) -/
def transformQueryDict (qd : List (String × List String)) :
    List (String × Value) :=
  qd.map fun p =>
    (p.1,
      match p.2 with
      | [v] => .str v
      | vs => .list (vs.map .str))

/-- `extract_request_payload(request, allow_form_data)`: a form body is
rejected with `UnsupportedMediaType` unless forms are allowed; an allowed
form body on `POST` yields the normalized form mapping; non-payload
methods yield no payload; otherwise the JSON body is parsed, a parse
failure raising an exception that is *not* a `BaseAPIException`. -/
def extractRequestPayload (req : Request) (allowFormData : Bool) :
    Except ChainExc (Option Value) :=
  if !allowFormData && req.contentType ∈ FORMS_CONTENT_TYPES then
    .error (.api .unsupportedMediaType)
  else if req.contentType ∈ FORMS_CONTENT_TYPES && req.method = "POST" then
    .ok (some (.dict (transformQueryDict req.postParams)))
  else if req.method ∉ SUPPORTING_PAYLOAD_METHODS then
    .ok Option.none
  else
    match req.jsonBody with
    | .ok v => .ok (some v)
    | .error msg => .error (.generic msg)

/-- A `JsonResponse`: status code and body. -/
structure Response where
  status : Nat
  body : Value

/-- `JsonResponse({"error_msg": e.RESPONSE_MESSAGE}, status=e.STATUS_CODE)`. -/
def errorResponse (e : ApiExc) : Response :=
  ⟨STATUS_CODE e, .dict [("error_msg", .str (RESPONSE_MESSAGE e))]⟩

/-- `build_function_wrapper.function_wrapper`: the gate chain in source
order — method allow-set, permission predicate, query normalization,
payload extraction, deserialization (for payload-carrying methods), view
call — inside a `try` whose handlers map a `BaseAPIException` to its
declared status/message and any other exception to the
`InternalServerError` pair.  A `ValidationError` escaping `is_valid()` or
`data` (non-mapping payload) is such an other exception. -/
def functionWrapper (permission : Request → Bool)
    (allowedMethods : List String)
    (dmap : String → List (String × DField)) (allowForms : Bool)
    (view : Request → List (String × Value) → Option Value →
      Except ChainExc Response)
    (req : Request) : Response :=
  let chain : Except ChainExc Response :=
    if req.method ∉ allowedMethods then .error (.api .methodNotAllowed)
    else if !permission req then .error (.api .permissionDenied)
    else
      let queryParams := transformQueryDict req.getParams
      match extractRequestPayload req allowForms with
      | .error e => .error e
      | .ok payload =>
          if req.method ∈ SUPPORTING_PAYLOAD_METHODS then
            match isValidD (initDeserializer (dmap req.method)
                ((payload).getD .none)) with
            | .error msg => .error (.generic (String.intercalate "; " msg))
            | .ok (valid, inst1) =>
                if !valid then .error (.api .badRequest)
                else
                  match accessData inst1 with
                  | .error msg => .error (.generic (String.intercalate "; " msg))
                  | .ok (cleaned, _) => view req queryParams (some cleaned)
          else view req queryParams Option.none
  match chain with
  | .ok resp => resp
  | .error (.api e) => errorResponse e
  | .error (.generic _) => errorResponse .internalServerError

/-- C5: the decorated view's gates run in source order: a method outside
the allow-set yields the method-not-allowed response (405, fixed message)
regardless of everything else; with the method allowed, a false permission
predicate yields the forbidden response (403); with both gates passed, a
payload whose deserialization is invalid yields bad request (400); a JSON
parse failure (an untyped exception) yields the internal-error response;
and in general every response is either the wrapped view's own response
or the fixed (status, message) pair of a declared API exception — the raw
text of an untyped exception never appears in the response. -/
theorem decorated_view_gate_chain (permission : Request → Bool)
    (allowedMethods : List String)
    (dmap : String → List (String × DField)) (allowForms : Bool)
    (view : Request → List (String × Value) → Option Value →
      Except ChainExc Response)
    (req : Request) :
    (req.method ∉ allowedMethods →
      functionWrapper permission allowedMethods dmap allowForms view req
        = errorResponse .methodNotAllowed)
    ∧ (req.method ∈ allowedMethods → permission req = false →
      functionWrapper permission allowedMethods dmap allowForms view req
        = errorResponse .permissionDenied)
    ∧ (∀ (p : Value) (inst1 : DeserializerState),
      req.method ∈ allowedMethods → permission req = true →
      req.method ∈ SUPPORTING_PAYLOAD_METHODS →
      extractRequestPayload req allowForms = .ok (some p) →
      isValidD (initDeserializer (dmap req.method) p) = .ok (false, inst1) →
      functionWrapper permission allowedMethods dmap allowForms view req
        = errorResponse .badRequest)
    ∧ (∀ msg : String,
      req.method ∈ allowedMethods → permission req = true →
      req.contentType ∉ FORMS_CONTENT_TYPES →
      req.method ∈ SUPPORTING_PAYLOAD_METHODS →
      req.jsonBody = .error msg →
      functionWrapper permission allowedMethods dmap allowForms view req
        = errorResponse .internalServerError)
    ∧ ((∃ (qp : List (String × Value)) (dd : Option Value),
        view req qp dd = .ok (functionWrapper permission allowedMethods
          dmap allowForms view req))
      ∨ ∃ e : ApiExc,
        functionWrapper permission allowedMethods dmap allowForms view req
          = errorResponse e) := by
  have ha : req.method ∉ allowedMethods →
      functionWrapper permission allowedMethods dmap allowForms view req
        = errorResponse .methodNotAllowed := by
    intro h
    simp [functionWrapper, h]
  have hb : req.method ∈ allowedMethods → permission req = false →
      functionWrapper permission allowedMethods dmap allowForms view req
        = errorResponse .permissionDenied := by
    intro h hp
    simp [functionWrapper, h, hp]
  have hc : ∀ (p : Value) (inst1 : DeserializerState),
      req.method ∈ allowedMethods → permission req = true →
      req.method ∈ SUPPORTING_PAYLOAD_METHODS →
      extractRequestPayload req allowForms = .ok (some p) →
      isValidD (initDeserializer (dmap req.method) p) = .ok (false, inst1) →
      functionWrapper permission allowedMethods dmap allowForms view req
        = errorResponse .badRequest := by
    intro p inst1 h hp hsup hex hval
    simp [functionWrapper, h, hp, hsup, hex, hval]
  have hd : ∀ msg : String,
      req.method ∈ allowedMethods → permission req = true →
      req.contentType ∉ FORMS_CONTENT_TYPES →
      req.method ∈ SUPPORTING_PAYLOAD_METHODS →
      req.jsonBody = .error msg →
      functionWrapper permission allowedMethods dmap allowForms view req
        = errorResponse .internalServerError := by
    intro msg h hp hct hsup hjson
    simp [functionWrapper, extractRequestPayload, h, hp, hct, hsup, hjson]
  refine ⟨ha, hb, hc, hd, ?_⟩
  by_cases h1 : req.method ∉ allowedMethods
  · exact Or.inr ⟨.methodNotAllowed, ha h1⟩
  · rw [not_not] at h1
    by_cases h2 : permission req
    · cases hex : extractRequestPayload req allowForms with
      | error e =>
          cases e with
          | api e' =>
              refine Or.inr ⟨e', ?_⟩
              simp [functionWrapper, h1, h2, hex]
          | generic m =>
              refine Or.inr ⟨.internalServerError, ?_⟩
              simp [functionWrapper, h1, h2, hex]
      | ok payload =>
          by_cases h3 : req.method ∈ SUPPORTING_PAYLOAD_METHODS
          · cases hv : isValidD (initDeserializer (dmap req.method)
                (payload.getD .none)) with
            | error m =>
                refine Or.inr ⟨.internalServerError, ?_⟩
                simp [functionWrapper, h1, h2, hex, h3, hv]
            | ok pr =>
                obtain ⟨valid, inst1⟩ := pr
                cases valid with
                | false =>
                    refine Or.inr ⟨.badRequest, ?_⟩
                    simp [functionWrapper, h1, h2, hex, h3, hv]
                | true =>
                    cases had : accessData inst1 with
                    | error m =>
                        refine Or.inr ⟨.internalServerError, ?_⟩
                        simp [functionWrapper, h1, h2, hex, h3, hv, had]
                    | ok pc =>
                        obtain ⟨cleaned, inst2⟩ := pc
                        cases hview : view req (transformQueryDict req.getParams)
                            (some cleaned) with
                        | ok resp =>
                            refine Or.inl ⟨transformQueryDict req.getParams,
                              some cleaned, ?_⟩
                            rw [hview]
                            congr 1
                            simp [functionWrapper, h1, h2, hex, h3, hv, had,
                              hview]
                        | error e =>
                            cases e with
                            | api e' =>
                                refine Or.inr ⟨e', ?_⟩
                                simp [functionWrapper, h1, h2, hex, h3, hv,
                                  had, hview]
                            | generic m =>
                                refine Or.inr ⟨.internalServerError, ?_⟩
                                simp [functionWrapper, h1, h2, hex, h3, hv,
                                  had, hview]
          · cases hview : view req (transformQueryDict req.getParams)
                Option.none with
            | ok resp =>
                refine Or.inl ⟨transformQueryDict req.getParams,
                  Option.none, ?_⟩
                rw [hview]
                congr 1
                simp [functionWrapper, h1, h2, hex, h3, hview]
            | error e =>
                cases e with
                | api e' =>
                    refine Or.inr ⟨e', ?_⟩
                    simp [functionWrapper, h1, h2, hex, h3, hview]
                | generic m =>
                    refine Or.inr ⟨.internalServerError, ?_⟩
                    simp [functionWrapper, h1, h2, hex, h3, hview]
    · refine Or.inr ⟨.permissionDenied, ?_⟩
      exact hb h1 (by simp [h2])

/-- A wrapped view that plainly succeeds (used by witnesses). -/
def demoView : Request → List (String × Value) → Option Value →
    Except ChainExc Response := fun _ _ _ => .ok ⟨200, .str "ok"⟩

/-- A deserializer map sending every payload method to the simple test
schema. -/
def demoDmap : String → List (String × DField) := fun _ => demoSimpleSchema

/-- C5 (witness): concrete requests hitting each gate: a disallowed
method, a denied permission, an invalid payload, and an unparseable JSON
body. -/
theorem decorated_view_gate_chain_witness :
    functionWrapper (fun _ => true) ["GET"] demoDmap false demoView
        ⟨"DELETE", "application/json", [], [], .ok (.dict [])⟩
      = errorResponse .methodNotAllowed
    ∧ functionWrapper (fun _ => false) ["GET"] demoDmap false demoView
        ⟨"GET", "application/json", [], [], .ok (.dict [])⟩
      = errorResponse .permissionDenied
    ∧ functionWrapper (fun _ => true) ["POST"] demoDmap false demoView
        ⟨"POST", "application/json", [], [], .ok (.dict [])⟩
      = errorResponse .badRequest
    ∧ functionWrapper (fun _ => true) ["POST"] demoDmap false demoView
        ⟨"POST", "application/json", [], [],
          .error "Expecting value: line 1 column 1 (char 0)"⟩
      = errorResponse .internalServerError := by
  refine ⟨?_, ?_, ?_, ?_⟩
  · exact (decorated_view_gate_chain _ _ _ _ _ _).1 (by decide)
  · exact (decorated_view_gate_chain _ _ _ _ _ _).2.1 (by decide) rfl
  · exact (decorated_view_gate_chain _ _ _ _ _ _).2.2.1 (.dict [])
      ⟨demoSimpleSchema, .dict [],
        some [("foo", .msgs ["This field is required."])],
        .dict [("bar", Value.none)], 1⟩
      (by decide) rfl (by decide) rfl
      (by simp [isValidD, accessErrors, initDeserializer, fullCleanRun,
        cleanFieldsRun, cleanFieldsLoop, fieldClean, integerFieldClean,
        floatFieldClean, isDeserializerEmpty, isDjangoEmpty, dictGet,
        demoSimpleSchema, demoDmap, errEntryOf, DField.required])
  · exact (decorated_view_gate_chain _ _ _ _ _ _).2.2.2.1
      "Expecting value: line 1 column 1 (char 0)" (by decide) rfl (by decide)
      (by decide) rfl

end DjangoRest
